import Mathlib

/-!
Helm client bootstrap (`integrations/helm/helm.go`)

A shallow embedding of `tillerHost`, `newClient`, `ClientSetup` and
`GetTillerVersion`, followed by the properties of the address resolver, the
bootstrap loop and the version diagnostic.

Conventions of the embedding

* A Go function returning `(T, error)` is a function into
  `GoResult (T × Option Error)`: either it returns the pair (a `nil` error is
  `none`), or it stops in a run-time panic.
* Effects on the outside world are recorded as `Event`s.  Every effectful
  function takes the history `hist` of the events that happened before the call
  and returns, next to its result, the list of events it emitted itself.
* The collaborators that are not part of this package (the Kubernetes API
  server, `tlsutil.ClientConfig`, the Tiller RPC) are parameters.  Their answer
  may depend on the arguments of the call and on the whole history, and a call
  of a collaborator may panic instead of returning.
-/

namespace Helm

/-! ## Data model -/

/-- A Go `error` value; `msg` is what its `Error()` method returns. -/
structure Error where
  msg : String
  deriving DecidableEq

/-- Run-time panics the embedded code can raise. -/
inductive Panic where
  /-- The index expression `xs[i]` with `len(xs) = len` and `i ≥ len`. -/
  | indexOutOfRange (i len : Nat)
  /-- A panic raised inside a collaborator. -/
  | foreign (msg : String)
  deriving DecidableEq

/-- Outcome of a Go call: it returns a value or it panics. -/
inductive GoResult (α : Type) where
  | ret (val : α)
  | panic (p : Panic)
  deriving DecidableEq

/-- The struct `TillerOptions` (lines 27-36). -/
structure TillerOptions where
  Host : String
  Port : String
  Namespace : String
  TLSVerify : Bool
  TLSEnable : Bool
  TLSKey : String
  TLSCert : String
  TLSCACert : String
  deriving DecidableEq

/-- The part of a Kubernetes `v1.Service` read by `tillerHost`: `Name`,
`Namespace` and the `Port` field (an `int32`) of every entry of `Spec.Ports`. -/
structure Service where
  Name : String
  Namespace : String
  Ports : List Int
  deriving DecidableEq

/-- The struct `tlsutil.Options` as filled in by `newClient` (lines 54-59). -/
structure TLSOptions where
  KeyFile : String
  CertFile : String
  InsecureSkipVerify : Bool
  CaCertFile : String
  deriving DecidableEq

/-- One nanosecond-based `time.Second`. -/
def Second : Nat := 1000000000

/-- Observable actions of the package. -/
inductive Event where
  /-- The call `kubeClient.CoreV1().Services(ns).Get(name, ...)`. -/
  | lookup (ns name : String)
  /-- The call `tlsutil.ClientConfig(o)`, which reads the key, certificate and CA files. -/
  | tlsLoad (o : TLSOptions)
  /-- The call `logger.Log(key, val)`. -/
  | log (key val : String)
  /-- The call `time.Sleep(d)`, `d` in nanoseconds. -/
  | sleep (d : Nat)
  deriving DecidableEq

/-- An option handed to `k8shelm.NewClient`. -/
inductive HelmOption (Cfg : Type) where
  /-- The option `k8shelm.Host(host)`. -/
  | Host (host : String)
  /-- The option `k8shelm.WithTLS(cfg)`. -/
  | WithTLS (cfg : Cfg)
  deriving DecidableEq

/-- A `k8shelm.Client`, identified by the options it was built from;
`&k8shelm.Client{}` has none. -/
structure Client (Cfg : Type) where
  opts : List (HelmOption Cfg)
  deriving DecidableEq

/-- The call `k8shelm.NewClient(options...)`. -/
def NewClient {Cfg : Type} (options : List (HelmOption Cfg)) : Client Cfg :=
  ⟨options⟩

/-- The collaborators outside the package.  `Cfg` stands for `*tls.Config`. -/
structure Env (Cfg : Type) where
  /-- Outcome of `Services(ns).Get(name, ...)` after history `hist`: a service,
  an error, or a panic inside the call. -/
  Get : (hist : List Event) → (ns name : String) → GoResult (Except Error Service)
  /-- Outcome of `tlsutil.ClientConfig(o)` after history `hist`: a configuration,
  an error, or a panic inside the call. -/
  ClientConfig : (hist : List Event) → (o : TLSOptions) → GoResult (Except Error Cfg)

/-! ## Formatting -/

/-- The verb `%v` applied to an `int32`: its decimal rendering. -/
def fmtInt32 (p : Int) : String :=
  toString p

/-- The verb `%v` applied to an `error`: `<nil>` for the nil error, the text
of `Error()` otherwise. -/
def fmtError : Option Error → String
  | none => "<nil>"
  | some e => e.msg

/-! ## `tillerHost` (lines 99-109) -/

/-- The function `tillerHost`: the endpoint of Tiller, from the options or
from the service `tiller-deploy` of the namespace. -/
def tillerHost {Cfg : Type} (kubeClient : Env Cfg) (opts : TillerOptions)
    (hist : List Event) : GoResult (String × Option Error) × List Event :=
  if opts.Host = "" ∨ opts.Port = "" then
    match kubeClient.Get hist opts.Namespace "tiller-deploy" with
    | .panic p => (.panic p, [Event.lookup opts.Namespace "tiller-deploy"])
    | .ret (.error err) => (.ret ("", some err), [Event.lookup opts.Namespace "tiller-deploy"])
    | .ret (.ok ts) =>
      match ts.Ports with
      | [] => (.panic (.indexOutOfRange 0 0), [Event.lookup opts.Namespace "tiller-deploy"])
      | port0 :: _ =>
        (.ret (ts.Name ++ "." ++ ts.Namespace ++ ":" ++ fmtInt32 port0, none),
          [Event.lookup opts.Namespace "tiller-deploy"])
  else
    (.ret (opts.Host ++ ":" ++ opts.Port, none), [])

/-! ## `newClient` (lines 46-68) -/

/-- Lines 54-59: the `tlsutil.Options` literal that `newClient` passes to
`tlsutil.ClientConfig`. -/
def tlsRequest (opts : TillerOptions) : TLSOptions :=
  { KeyFile := opts.TLSKey
    CertFile := opts.TLSCert
    InsecureSkipVerify := !opts.TLSVerify
    CaCertFile := opts.TLSCACert }

/-- The function `newClient`: one attempt to build a client.  On failure it
returns the empty client `&k8shelm.Client{}` and the error.  There is no
`recover`: a panic of `tillerHost` or of `tlsutil.ClientConfig` ends the call. -/
def newClient {Cfg : Type} (kubeClient : Env Cfg) (opts : TillerOptions)
    (hist : List Event) : GoResult (Client Cfg × Option Error) × List Event :=
  match tillerHost kubeClient opts hist with
  | (.panic p, ev) => (.panic p, ev)
  | (.ret (_, some err), ev) => (.ret (⟨[]⟩, some err), ev)
  | (.ret (host, none), ev) =>
    let options : List (HelmOption Cfg) := [HelmOption.Host host]
    if opts.TLSVerify ∨ opts.TLSEnable then
      let o : TLSOptions := tlsRequest opts
      match kubeClient.ClientConfig (hist ++ ev) o with
      | .panic p => (.panic p, ev ++ [Event.tlsLoad o])
      | .ret (.error err) => (.ret (⟨[]⟩, some err), ev ++ [Event.tlsLoad o])
      | .ret (.ok tlscfg) =>
        (.ret (NewClient (options ++ [HelmOption.WithTLS tlscfg]), none),
          ev ++ [Event.tlsLoad o])
    else
      (.ret (NewClient options, none), ev)

/-! ## `ClientSetup` (lines 70-84) -/

/-- What a run of `ClientSetup` leaves behind: the value it returned (or the
panic that ended it), the events it emitted, and a ghost counter of the calls
of `newClient` (executions of line 74). -/
structure SetupRun (Cfg : Type) where
  result : GoResult (Client Cfg)
  events : List Event
  attempts : Nat
  deriving DecidableEq

/-- Lines 76-77: the events of the failure branch of the loop. -/
def retryEvents (err : Error) : List Event :=
  [Event.log "error" ("Error creating helm client: " ++ fmtError (some err)),
   Event.sleep (20 * Second)]

/-- The function `ClientSetup`.  The `for` loop has no exit but `break`; `fuel`
bounds the number of iterations the model follows, and `none` means the loop
was still running when the fuel ran out. -/
def ClientSetup {Cfg : Type} (fuel : Nat) (kubeClient : Env Cfg)
    (tillerOpts : TillerOptions) (hist : List Event) : Option (SetupRun Cfg) :=
  match fuel with
  | 0 => none
  | fuel + 1 =>
    match newClient kubeClient tillerOpts hist with
    | (.panic p, ev) => some ⟨.panic p, ev, 1⟩
    | (.ret (_, some err), ev) =>
      match ClientSetup fuel kubeClient tillerOpts (hist ++ (ev ++ retryEvents err)) with
      | none => none
      | some run => some ⟨run.result, (ev ++ retryEvents err) ++ run.events, run.attempts + 1⟩
    | (.ret (helmClient, none), ev) =>
      some ⟨.ret helmClient, ev ++ [Event.log "info" "Helm client set up"], 1⟩

/-! ## `GetTillerVersion` (lines 86-96) -/

/-- The conversion `k8shelm.VersionOption(o)`. -/
structure VersionOption (Cfg : Type) where
  opt : HelmOption Cfg
  deriving DecidableEq

/-- The function `GetTillerVersion`.  `GetVersion` is the RPC `cl.GetVersion`,
returning the pair of a response pointer (`none` is `nil`) and an error;
`versionString v` is the expression `v.GetVersion().String()`. -/
def GetTillerVersion {Cfg Resp : Type}
    (GetVersion : Client Cfg → VersionOption Cfg → Option Resp × Option Error)
    (versionString : Option Resp → GoResult String)
    (cl : Client Cfg) (h : String) : GoResult (String × Option Error) :=
  let voption : VersionOption Cfg := ⟨HelmOption.Host h⟩
  let (v, err) := GetVersion cl voption
  if err = none then
    .ret ("", some ⟨"error getting tiller version: " ++ fmtError err⟩)
  else
    match versionString v with
    | .ret s => .ret (s, none)
    | .panic p => .panic p

/-! ## Auxiliary definitions for the statements -/

/-- The delay of a `sleep` event, nothing for any other event. -/
def Event.sleepOf : Event → Option Nat
  | .sleep d => some d
  | _ => none

/-- The key (level) of a `log` event, nothing for any other event. -/
def Event.logKeyOf : Event → Option String
  | .log key _ => some key
  | _ => none

/-- The request of a `tlsLoad` event, nothing for any other event. -/
def Event.tlsOf : Event → Option TLSOptions
  | .tlsLoad o => some o
  | _ => none

/-- The target of a `lookup` event, nothing for any other event. -/
def Event.lookupOf : Event → Option (String × String)
  | .lookup ns name => some (ns, name)
  | _ => none

/-- Whether, started after `hist`, `newClient` fails on the first `n` attempts
of the loop and succeeds on the next one. -/
def failsThenSucceeds {Cfg : Type} (kubeClient : Env Cfg) (opts : TillerOptions) :
    Nat → List Event → Bool
  | 0, hist =>
    match newClient kubeClient opts hist with
    | (.ret (_, none), _) => true
    | _ => false
  | n + 1, hist =>
    match newClient kubeClient opts hist with
    | (.ret (_, some err), ev) =>
      failsThenSucceeds kubeClient opts n (hist ++ (ev ++ retryEvents err))
    | _ => false

/-! ## Sample environments and options -/

/-- A sample of `tlsutil.ClientConfig`: with neither a key nor a certificate
path it dereferences the certificate it never loaded and panics; the pair loads
when the key path is `key.pem`; any other key path is a file that is not there. -/
def sampleClientConfig (o : TLSOptions) : GoResult (Except Error Nat) :=
  if o.KeyFile = "" ∧ o.CertFile = "" then
    .panic (.foreign "invalid memory address or nil pointer dereference")
  else if o.KeyFile = "key.pem" then .ret (.ok 7)
  else .ret (.error ⟨"open " ++ o.KeyFile ++ ": no such file"⟩)

/-- A cluster with the service `tiller-deploy` on port 44134 in namespace
`flux` only, visible from the third lookup on. -/
def testEnv : Env Nat where
  Get := fun hist ns name =>
    if (hist.filterMap Event.lookupOf).length < 2 then .ret (.error ⟨"connection refused"⟩)
    else if ns = "flux" ∧ name = "tiller-deploy" then
      .ret (.ok ⟨"tiller-deploy", "flux", [44134]⟩)
    else .ret (.error ⟨"service tiller-deploy not found"⟩)
  ClientConfig := fun _ o => sampleClientConfig o

/-- A cluster in which `tiller-deploy` of namespace `flux` is always there. -/
def fluxEnv : Env Nat where
  Get := fun _ ns name =>
    if ns = "flux" ∧ name = "tiller-deploy" then
      .ret (.ok ⟨"tiller-deploy", "flux", [44134]⟩)
    else .ret (.error ⟨"service tiller-deploy not found"⟩)
  ClientConfig := fun _ o => sampleClientConfig o

/-- An environment in which discovery must not be used: every lookup fails. -/
def noDiscovery : Env Nat where
  Get := fun _ _ _ => .ret (.error ⟨"discovery called"⟩)
  ClientConfig := fun _ o => sampleClientConfig o

/-- Discovery of a `tiller-deploy` service that exposes no port. -/
def portlessEnv : Env Nat where
  Get := fun _ ns _ => .ret (.ok ⟨"tiller-deploy", ns, []⟩)
  ClientConfig := fun _ o => sampleClientConfig o

/-- The expression `v.GetVersion().String()` of the generated protobuf code,
with responses shown as their version text: nil-safe, `<nil>` for a nil response. -/
def protoString : Option String → GoResult String
  | none => .ret "<nil>"
  | some v => .ret v

/-- Options with only a namespace. -/
def nsOnly (ns : String) : TillerOptions :=
  { Host := "", Port := "", Namespace := ns, TLSVerify := false, TLSEnable := false,
    TLSKey := "", TLSCert := "", TLSCACert := "" }

/-- Options with an explicit host and port. -/
def explicitOpts (host port : String) : TillerOptions :=
  { Host := host, Port := port, Namespace := "default", TLSVerify := false,
    TLSEnable := false, TLSKey := "", TLSCert := "", TLSCACert := "" }

/-- Options with an explicit host and port and TLS enabled, but with no key,
certificate or CA path. -/
def tlsBareOpts : TillerOptions :=
  { Host := "10.0.0.5", Port := "44134", Namespace := "default", TLSVerify := false,
    TLSEnable := true, TLSKey := "", TLSCert := "", TLSCACert := "" }

/-! ## Lemmas on strings and on the decimal rendering -/

theorem append_sep_ne_empty (a sep b : String) (hsep : sep ≠ "") : a ++ sep ++ b ≠ "" := by
  intro h
  have hlen := congrArg String.length h
  simp only [String.length_append] at hlen
  have h0 : sep.length = 0 := by
    have : ("" : String).length = 0 := rfl
    omega
  cases sep with
  | mk l =>
    have hl : l = [] := List.length_eq_zero.mp h0
    subst hl
    exact hsep rfl

/-- The digit loop of the library writes the base-10 digits of a positive
number, most significant first, in front of what is already there. -/
theorem toDigitsCore_digits (fuel : Nat) :
    ∀ (n : Nat) (ds : List Char), 0 < n → n < fuel →
      Nat.toDigitsCore 10 fuel n ds = (Nat.digits 10 n).reverse.map Nat.digitChar ++ ds := by
  induction fuel with
  | zero => intro n ds _ h; omega
  | succ f ih =>
    intro n ds hn hf
    rw [Nat.digits_def' (by decide) hn]
    simp only [Nat.toDigitsCore]
    by_cases h0 : n / 10 = 0
    · simp [h0]
    · rw [if_neg h0, ih (n / 10) _ (Nat.pos_of_ne_zero h0) (by omega)]
      simp

theorem repr_digits (n : Nat) :
    Nat.repr n
      = String.mk (if n = 0 then ['0'] else (Nat.digits 10 n).reverse.map Nat.digitChar) := by
  by_cases h : n = 0
  · subst h; rfl
  · rw [if_neg h]
    show (Nat.toDigits 10 n).asString = _
    rw [Nat.toDigits, toDigitsCore_digits (n + 1) n [] (Nat.pos_of_ne_zero h) (by omega)]
    simp [List.asString]

/-- The rendering `%v` of an `int32` is its decimal numeral: a minus sign when
it is negative, then the base-10 digits of its absolute value, most significant
first, as the characters `0` to `9`; the single digit `0` for zero. -/
theorem fmtInt32_decimal (p : Int) :
    fmtInt32 p = (if p < 0 then "-" else "") ++
      String.mk (if p.natAbs = 0 then ['0']
        else (Nat.digits 10 p.natAbs).reverse.map Nat.digitChar) := by
  cases p with
  | ofNat m =>
    have h : ¬ ((Int.ofNat m) < 0) := by simp
    rw [if_neg h]
    show Nat.repr m = _
    rw [repr_digits]
    simp
  | negSucc m =>
    have h : (Int.negSucc m) < 0 := Int.negSucc_lt_zero m
    rw [if_pos h]
    show "-" ++ Nat.repr (m + 1) = _
    rw [repr_digits]
    simp [Int.natAbs]

/-! ## Outcomes of the resolver and of one attempt -/

theorem tillerHost_of_lookup_panic {Cfg : Type} (kubeClient : Env Cfg) (opts : TillerOptions)
    (hist : List Event) (p : Panic) (h : opts.Host = "" ∨ opts.Port = "")
    (hget : kubeClient.Get hist opts.Namespace "tiller-deploy" = .panic p) :
    tillerHost kubeClient opts hist
      = (.panic p, [Event.lookup opts.Namespace "tiller-deploy"]) := by
  simp only [tillerHost, if_pos h, hget]

theorem tillerHost_of_lookup_error {Cfg : Type} (kubeClient : Env Cfg) (opts : TillerOptions)
    (hist : List Event) (e : Error) (h : opts.Host = "" ∨ opts.Port = "")
    (hget : kubeClient.Get hist opts.Namespace "tiller-deploy" = .ret (.error e)) :
    tillerHost kubeClient opts hist
      = (.ret ("", some e), [Event.lookup opts.Namespace "tiller-deploy"]) := by
  simp only [tillerHost, if_pos h, hget]

theorem tillerHost_of_no_ports {Cfg : Type} (kubeClient : Env Cfg) (opts : TillerOptions)
    (hist : List Event) (ts : Service) (h : opts.Host = "" ∨ opts.Port = "")
    (hget : kubeClient.Get hist opts.Namespace "tiller-deploy" = .ret (.ok ts))
    (hports : ts.Ports = []) :
    tillerHost kubeClient opts hist
      = (.panic (.indexOutOfRange 0 0), [Event.lookup opts.Namespace "tiller-deploy"]) := by
  simp only [tillerHost, if_pos h, hget, hports]

theorem tillerHost_of_first_port {Cfg : Type} (kubeClient : Env Cfg) (opts : TillerOptions)
    (hist : List Event) (ts : Service) (port0 : Int) (rest : List Int)
    (h : opts.Host = "" ∨ opts.Port = "")
    (hget : kubeClient.Get hist opts.Namespace "tiller-deploy" = .ret (.ok ts))
    (hports : ts.Ports = port0 :: rest) :
    tillerHost kubeClient opts hist
      = (.ret (ts.Name ++ "." ++ ts.Namespace ++ ":" ++ fmtInt32 port0, none),
          [Event.lookup opts.Namespace "tiller-deploy"]) := by
  simp only [tillerHost, if_pos h, hget, hports]

theorem tillerHost_of_host_port {Cfg : Type} (kubeClient : Env Cfg) (opts : TillerOptions)
    (hist : List Event) (h : ¬ (opts.Host = "" ∨ opts.Port = "")) :
    tillerHost kubeClient opts hist = (.ret (opts.Host ++ ":" ++ opts.Port, none), []) := by
  simp only [tillerHost, if_neg h]

/-- The resolver returns an endpoint only in two ways. -/
theorem tillerHost_endpoint_cases {Cfg : Type} (kubeClient : Env Cfg) (opts : TillerOptions)
    (hist : List Event) (s : String)
    (h : (tillerHost kubeClient opts hist).1 = .ret (s, none)) :
    s = opts.Host ++ ":" ++ opts.Port ∨
    ∃ (ts : Service) (port0 : Int),
      s = ts.Name ++ "." ++ ts.Namespace ++ ":" ++ fmtInt32 port0 := by
  by_cases hemp : opts.Host = "" ∨ opts.Port = ""
  · rcases hget : kubeClient.Get hist opts.Namespace "tiller-deploy" with (e | ts) | p
    · rw [tillerHost_of_lookup_error _ _ _ e hemp hget] at h
      simp at h
    · cases hports : ts.Ports with
      | nil =>
        rw [tillerHost_of_no_ports _ _ _ ts hemp hget hports] at h
        simp at h
      | cons port0 rest =>
        rw [tillerHost_of_first_port _ _ _ ts port0 rest hemp hget hports] at h
        simp only [GoResult.ret.injEq, Prod.mk.injEq, and_true] at h
        exact Or.inr ⟨ts, port0, h.symm⟩
    · rw [tillerHost_of_lookup_panic _ _ _ p hemp hget] at h
      simp at h
  · rw [tillerHost_of_host_port _ _ _ hemp] at h
    simp only [GoResult.ret.injEq, Prod.mk.injEq, and_true] at h
    exact Or.inl h.symm

theorem tillerHost_events_of_empty {Cfg : Type} (kubeClient : Env Cfg)
    (opts : TillerOptions) (hist : List Event) (h : opts.Host = "" ∨ opts.Port = "") :
    (tillerHost kubeClient opts hist).2 = [Event.lookup opts.Namespace "tiller-deploy"] := by
  rcases hget : kubeClient.Get hist opts.Namespace "tiller-deploy" with (e | ts) | p
  · rw [tillerHost_of_lookup_error _ _ _ e h hget]
  · cases hports : ts.Ports with
    | nil => rw [tillerHost_of_no_ports _ _ _ ts h hget hports]
    | cons port0 rest => rw [tillerHost_of_first_port _ _ _ ts port0 rest h hget hports]
  · rw [tillerHost_of_lookup_panic _ _ _ p h hget]

theorem tillerHost_events {Cfg : Type} (kubeClient : Env Cfg) (opts : TillerOptions)
    (hist : List Event) :
    (tillerHost kubeClient opts hist).2 = [] ∨
    (tillerHost kubeClient opts hist).2 = [Event.lookup opts.Namespace "tiller-deploy"] := by
  by_cases hemp : opts.Host = "" ∨ opts.Port = ""
  · exact Or.inr (tillerHost_events_of_empty kubeClient opts hist hemp)
  · rw [tillerHost_of_host_port _ _ _ hemp]
    exact Or.inl rfl

theorem tillerHost_quiet {Cfg : Type} (kubeClient : Env Cfg) (opts : TillerOptions)
    (hist : List Event) :
    (tillerHost kubeClient opts hist).2.filterMap Event.sleepOf = [] ∧
    (tillerHost kubeClient opts hist).2.filterMap Event.logKeyOf = [] ∧
    (tillerHost kubeClient opts hist).2.filterMap Event.tlsOf = [] := by
  rcases tillerHost_events kubeClient opts hist with h | h <;> rw [h] <;>
    simp [Event.sleepOf, Event.logKeyOf, Event.tlsOf]

theorem newClient_of_panic {Cfg : Type} (kubeClient : Env Cfg) (opts : TillerOptions)
    (hist : List Event) (p : Panic) (ev : List Event)
    (h : tillerHost kubeClient opts hist = (.panic p, ev)) :
    newClient kubeClient opts hist = (.panic p, ev) := by
  simp only [newClient, h]

theorem newClient_of_error {Cfg : Type} (kubeClient : Env Cfg) (opts : TillerOptions)
    (hist : List Event) (s : String) (err : Error) (ev : List Event)
    (h : tillerHost kubeClient opts hist = (.ret (s, some err), ev)) :
    newClient kubeClient opts hist = (.ret (⟨[]⟩, some err), ev) := by
  simp only [newClient, h]

theorem newClient_of_host_plain {Cfg : Type} (kubeClient : Env Cfg) (opts : TillerOptions)
    (hist : List Event) (host : String) (ev : List Event)
    (h : tillerHost kubeClient opts hist = (.ret (host, none), ev))
    (hflag : ¬ (opts.TLSVerify = true ∨ opts.TLSEnable = true)) :
    newClient kubeClient opts hist = (.ret (NewClient [HelmOption.Host host], none), ev) := by
  simp only [newClient, h, if_neg hflag]

theorem newClient_of_host_tls_panic {Cfg : Type} (kubeClient : Env Cfg) (opts : TillerOptions)
    (hist : List Event) (host : String) (ev : List Event) (p : Panic)
    (h : tillerHost kubeClient opts hist = (.ret (host, none), ev))
    (hflag : opts.TLSVerify = true ∨ opts.TLSEnable = true)
    (hcc : kubeClient.ClientConfig (hist ++ ev) (tlsRequest opts) = .panic p) :
    newClient kubeClient opts hist
      = (.panic p, ev ++ [Event.tlsLoad (tlsRequest opts)]) := by
  simp only [newClient, h, if_pos hflag, hcc]

theorem newClient_of_host_tls_error {Cfg : Type} (kubeClient : Env Cfg) (opts : TillerOptions)
    (hist : List Event) (host : String) (ev : List Event) (err : Error)
    (h : tillerHost kubeClient opts hist = (.ret (host, none), ev))
    (hflag : opts.TLSVerify = true ∨ opts.TLSEnable = true)
    (hcc : kubeClient.ClientConfig (hist ++ ev) (tlsRequest opts) = .ret (.error err)) :
    newClient kubeClient opts hist
      = (.ret (⟨[]⟩, some err), ev ++ [Event.tlsLoad (tlsRequest opts)]) := by
  simp only [newClient, h, if_pos hflag, hcc]

theorem newClient_of_host_tls_ok {Cfg : Type} (kubeClient : Env Cfg) (opts : TillerOptions)
    (hist : List Event) (host : String) (ev : List Event) (cfg : Cfg)
    (h : tillerHost kubeClient opts hist = (.ret (host, none), ev))
    (hflag : opts.TLSVerify = true ∨ opts.TLSEnable = true)
    (hcc : kubeClient.ClientConfig (hist ++ ev) (tlsRequest opts) = .ret (.ok cfg)) :
    newClient kubeClient opts hist
      = (.ret (NewClient [HelmOption.Host host, HelmOption.WithTLS cfg], none),
          ev ++ [Event.tlsLoad (tlsRequest opts)]) := by
  simp only [newClient, h, if_pos hflag, hcc, List.singleton_append]

/-- The events of one attempt: those of the resolver, then the TLS load when
the resolver returned an endpoint and a TLS flag is set. -/
theorem newClient_events {Cfg : Type} (kubeClient : Env Cfg) (opts : TillerOptions)
    (hist : List Event) :
    (newClient kubeClient opts hist).2 =
      (tillerHost kubeClient opts hist).2 ++
        (match (tillerHost kubeClient opts hist).1 with
         | .ret (_, none) =>
           if opts.TLSVerify = true ∨ opts.TLSEnable = true then [Event.tlsLoad (tlsRequest opts)]
           else []
         | _ => []) := by
  rcases hth : tillerHost kubeClient opts hist with ⟨r, ev⟩
  rcases r with ⟨s, _ | err⟩ | p
  · by_cases hflag : opts.TLSVerify = true ∨ opts.TLSEnable = true
    · rcases hcc : kubeClient.ClientConfig (hist ++ ev) (tlsRequest opts) with (e | cfg) | q
      · simp [newClient_of_host_tls_error _ _ _ _ _ _ hth hflag hcc, hflag]
      · simp [newClient_of_host_tls_ok _ _ _ _ _ _ hth hflag hcc, hflag]
      · simp [newClient_of_host_tls_panic _ _ _ _ _ _ hth hflag hcc, hflag]
    · simp [newClient_of_host_plain _ _ _ _ _ hth hflag, hflag]
  · simp [newClient_of_error _ _ _ _ _ _ hth]
  · simp [newClient_of_panic _ _ _ _ _ hth]

theorem newClient_quiet {Cfg : Type} (kubeClient : Env Cfg) (opts : TillerOptions)
    (hist : List Event) :
    (newClient kubeClient opts hist).2.filterMap Event.sleepOf = [] ∧
    (newClient kubeClient opts hist).2.filterMap Event.logKeyOf = [] := by
  rw [newClient_events]
  obtain ⟨h1, h2, _⟩ := tillerHost_quiet kubeClient opts hist
  simp only [List.filterMap_append, h1, h2, List.nil_append]
  constructor <;>
  · split
    · split <;> simp [Event.sleepOf, Event.logKeyOf]
    · rfl

theorem newClient_success_opts {Cfg : Type} (kubeClient : Env Cfg) (opts : TillerOptions)
    (hist : List Event) (c : Client Cfg)
    (h : (newClient kubeClient opts hist).1 = .ret (c, none)) : c ≠ ⟨[]⟩ := by
  rcases hth : tillerHost kubeClient opts hist with ⟨r, ev⟩
  rcases r with ⟨s, _ | err⟩ | p
  · by_cases hflag : opts.TLSVerify = true ∨ opts.TLSEnable = true
    · rcases hcc : kubeClient.ClientConfig (hist ++ ev) (tlsRequest opts) with (e | cfg) | q
      · rw [newClient_of_host_tls_error _ _ _ _ _ _ hth hflag hcc] at h
        simp at h
      · rw [newClient_of_host_tls_ok _ _ _ _ _ _ hth hflag hcc] at h
        simp only [GoResult.ret.injEq, Prod.mk.injEq, and_true] at h
        subst h
        simp [NewClient]
      · rw [newClient_of_host_tls_panic _ _ _ _ _ _ hth hflag hcc] at h
        simp at h
    · rw [newClient_of_host_plain _ _ _ _ _ hth hflag] at h
      simp only [GoResult.ret.injEq, Prod.mk.injEq, and_true] at h
      subst h
      simp [NewClient]
  · rw [newClient_of_error _ _ _ _ _ _ hth] at h
    simp at h
  · rw [newClient_of_panic _ _ _ _ _ hth] at h
    simp at h

/-! ## The address resolver -/

/-- C1: when `Host` and `Port` are both non-empty, `tillerHost` returns
`Host ++ ":" ++ Port` with a nil error and emits no event at all, so it makes no
discovery lookup, whatever the collaborators would answer. -/
theorem tillerHost_explicit {Cfg : Type} (kubeClient : Env Cfg) (opts : TillerOptions)
    (hist : List Event) (hHost : opts.Host ≠ "") (hPort : opts.Port ≠ "") :
    tillerHost kubeClient opts hist = (.ret (opts.Host ++ ":" ++ opts.Port, none), []) := by
  unfold tillerHost
  rw [if_neg]
  rintro (h | h)
  · exact hHost h
  · exact hPort h

/-- Witness of C1: host `10.0.0.5` and port `44134`, against a cluster whose
every lookup fails, give `10.0.0.5:44134` and no event. -/
theorem tillerHost_explicit_witness :
    (explicitOpts "10.0.0.5" "44134").Host ≠ "" ∧ (explicitOpts "10.0.0.5" "44134").Port ≠ "" ∧
    tillerHost noDiscovery (explicitOpts "10.0.0.5" "44134") []
      = (.ret ("10.0.0.5:44134", none), []) :=
  ⟨by decide, by decide,
    (tillerHost_explicit noDiscovery (explicitOpts "10.0.0.5" "44134") []
      (by decide) (by decide)).trans (by decide)⟩

/-- C2: when `Host` or `Port` is empty, the events of `tillerHost` are exactly
one lookup of the service `tiller-deploy` in `opts.Namespace`; and when that
lookup answers a service with a first port, the result is, with a nil error, the
service name, a dot, the service namespace, a colon and the decimal numeral of
that port: a minus sign if the port is negative, then the base-10 digits of its
absolute value, most significant first (the digit `0` alone for zero). -/
theorem tillerHost_discovery {Cfg : Type} (kubeClient : Env Cfg) (opts : TillerOptions)
    (hist : List Event) (h : opts.Host = "" ∨ opts.Port = "") :
    (tillerHost kubeClient opts hist).2 = [Event.lookup opts.Namespace "tiller-deploy"] ∧
    ∀ (ts : Service) (port0 : Int) (rest : List Int),
      kubeClient.Get hist opts.Namespace "tiller-deploy" = .ret (.ok ts) →
      ts.Ports = port0 :: rest →
      (tillerHost kubeClient opts hist).1
        = .ret (ts.Name ++ "." ++ ts.Namespace ++ ":" ++
            ((if port0 < 0 then "-" else "") ++
              String.mk (if port0.natAbs = 0 then ['0']
                else (Nat.digits 10 port0.natAbs).reverse.map Nat.digitChar)), none) := by
  refine ⟨tillerHost_events_of_empty kubeClient opts hist h, ?_⟩
  intro ts port0 rest hget hp
  rw [tillerHost_of_first_port kubeClient opts hist ts port0 rest h hget hp,
    fmtInt32_decimal]

/-- Witness of C2: with only `Host` empty and namespace `flux`, the service
`tiller-deploy` of `flux` on port 44134 resolves to `tiller-deploy.flux:44134`
after exactly one lookup. -/
theorem tillerHost_discovery_witness :
    (tillerHost fluxEnv { nsOnly "flux" with Port := "44134" } []).2
      = [Event.lookup "flux" "tiller-deploy"] ∧
    (tillerHost fluxEnv { nsOnly "flux" with Port := "44134" } []).1
      = .ret ("tiller-deploy.flux:44134", none) :=
  ⟨(tillerHost_discovery fluxEnv { nsOnly "flux" with Port := "44134" } [] (Or.inl rfl)).1,
   ((tillerHost_discovery fluxEnv { nsOnly "flux" with Port := "44134" } [] (Or.inl rfl)).2
      ⟨"tiller-deploy", "flux", [44134]⟩ 44134 [] rfl rfl).trans (by
        have hn : Int.natAbs 44134 = 44134 := rfl
        have hd : Nat.digits 10 44134 = [4, 3, 1, 4, 4] := by simp
        rw [hn, hd]
        decide)⟩

/-- C3: when `Host` or `Port` is empty and the lookup fails with error `e`,
`tillerHost` returns the empty string together with that same error `e`. -/
theorem tillerHost_lookup_error {Cfg : Type} (kubeClient : Env Cfg) (opts : TillerOptions)
    (hist : List Event) (e : Error) (h : opts.Host = "" ∨ opts.Port = "")
    (hget : kubeClient.Get hist opts.Namespace "tiller-deploy" = .ret (.error e)) :
    (tillerHost kubeClient opts hist).1 = .ret ("", some e) := by
  unfold tillerHost
  rw [if_pos h, hget]

/-- Witness of C3: with no host and port, a failing lookup is returned as it is. -/
theorem tillerHost_lookup_error_witness :
    (tillerHost noDiscovery (nsOnly "flux") []).1 = .ret ("", some ⟨"discovery called"⟩) :=
  tillerHost_lookup_error noDiscovery (nsOnly "flux") [] ⟨"discovery called"⟩ (Or.inl rfl) rfl

/-- C4 (the code departs from it): when `Host` or `Port` is empty and the
lookup answers a service with an empty port list, `tillerHost` does not return
an error: the expression `ts.Spec.Ports[0]` panics with index out of range. -/
theorem tillerHost_no_ports_panics {Cfg : Type} (kubeClient : Env Cfg) (opts : TillerOptions)
    (hist : List Event) (ts : Service) (h : opts.Host = "" ∨ opts.Port = "")
    (hget : kubeClient.Get hist opts.Namespace "tiller-deploy" = .ret (.ok ts))
    (hports : ts.Ports = []) :
    (tillerHost kubeClient opts hist).1 = .panic (.indexOutOfRange 0 0) := by
  unfold tillerHost
  rw [if_pos h, hget]
  simp [hports]

/-- Witness of C4: namespace `flux`, no host and port, and a discovered
`tiller-deploy` without ports. -/
theorem tillerHost_no_ports_panics_witness :
    (tillerHost portlessEnv (nsOnly "flux") []).1 = .panic (.indexOutOfRange 0 0) :=
  tillerHost_no_ports_panics portlessEnv (nsOnly "flux") [] ⟨"tiller-deploy", "flux", []⟩
    (Or.inl rfl) rfl rfl

/-- C9: whenever `tillerHost` returns with a nil error, the endpoint it returns
is not the empty string. -/
theorem tillerHost_endpoint_nonempty {Cfg : Type} (kubeClient : Env Cfg)
    (opts : TillerOptions) (hist : List Event) (s : String)
    (h : (tillerHost kubeClient opts hist).1 = .ret (s, none)) : s ≠ "" := by
  rcases tillerHost_endpoint_cases kubeClient opts hist s h with rfl | ⟨ts, port0, rfl⟩
  · exact append_sep_ne_empty _ ":" _ (by decide)
  · exact append_sep_ne_empty _ ":" _ (by decide)

/-- Witness of C9: the endpoint `10.0.0.5:44134` of explicit options. -/
theorem tillerHost_endpoint_nonempty_witness :
    (tillerHost noDiscovery (explicitOpts "10.0.0.5" "44134") []).1
      = .ret ("10.0.0.5:44134", none) ∧ ("10.0.0.5:44134" : String) ≠ "" :=
  ⟨by decide,
   tillerHost_endpoint_nonempty noDiscovery (explicitOpts "10.0.0.5" "44134") []
     "10.0.0.5:44134" (by decide)⟩

/-! ## One attempt -/

/-- C6: when the address resolves, the TLS configuration requests made by
`newClient` are: exactly one, with `KeyFile = TLSKey`, `CertFile = TLSCert`,
`CaCertFile = TLSCACert` and `InsecureSkipVerify = !TLSVerify`, if `TLSVerify`
or `TLSEnable` is set, and none otherwise.  So a request is made if and only if
one of the two flags is set, and its `InsecureSkipVerify` is false when
`TLSVerify` is set and true when only `TLSEnable` is. -/
theorem newClient_tls_request {Cfg : Type} (kubeClient : Env Cfg) (opts : TillerOptions)
    (hist : List Event) (host : String)
    (hres : (tillerHost kubeClient opts hist).1 = .ret (host, none)) :
    ((newClient kubeClient opts hist).2.filterMap Event.tlsOf =
      if opts.TLSVerify = true ∨ opts.TLSEnable = true then
        [{ KeyFile := opts.TLSKey, CertFile := opts.TLSCert,
           InsecureSkipVerify := !opts.TLSVerify, CaCertFile := opts.TLSCACert }]
      else []) ∧
    ((∃ o, Event.tlsLoad o ∈ (newClient kubeClient opts hist).2) ↔
      (opts.TLSVerify = true ∨ opts.TLSEnable = true)) ∧
    (∀ o, Event.tlsLoad o ∈ (newClient kubeClient opts hist).2 →
      (opts.TLSVerify = true → o.InsecureSkipVerify = false) ∧
      (opts.TLSVerify = false → opts.TLSEnable = true ∧ o.InsecureSkipVerify = true)) := by
  have hev := newClient_events kubeClient opts hist
  rw [hres] at hev
  simp only at hev
  have hmem : ∀ o, Event.tlsLoad o ∈ (newClient kubeClient opts hist).2 ↔
      ((opts.TLSVerify = true ∨ opts.TLSEnable = true) ∧ o = tlsRequest opts) := by
    intro o
    rw [hev]
    rcases tillerHost_events kubeClient opts hist with h | h <;> rw [h] <;>
      by_cases hflag : opts.TLSVerify = true ∨ opts.TLSEnable = true <;> simp [hflag]
  refine ⟨?_, ?_, ?_⟩
  · rw [hev, List.filterMap_append, (tillerHost_quiet kubeClient opts hist).2.2]
    by_cases hflag : opts.TLSVerify = true ∨ opts.TLSEnable = true <;>
      simp [hflag, Event.tlsOf, tlsRequest]
  · constructor
    · rintro ⟨o, ho⟩
      exact ((hmem o).mp ho).1
    · intro hflag
      exact ⟨tlsRequest opts, (hmem _).mpr ⟨hflag, rfl⟩⟩
  · intro o ho
    obtain ⟨hflag, rfl⟩ := (hmem o).mp ho
    constructor
    · intro hv
      simp [tlsRequest, hv]
    · intro hv
      refine ⟨?_, by simp [tlsRequest, hv]⟩
      rcases hflag with h | h
      · rw [hv] at h; cases h
      · exact h

/-- Witness of C6: with only `TLSEnable` set, the one request made skips the
verification of the peer. -/
theorem newClient_tls_request_witness :
    (tillerHost fluxEnv { nsOnly "flux" with TLSEnable := true, TLSKey := "key.pem" } []).1
      = .ret ("tiller-deploy.flux:44134", none) ∧
    (newClient fluxEnv { nsOnly "flux" with TLSEnable := true, TLSKey := "key.pem" } []).2.filterMap
        Event.tlsOf
      = [{ KeyFile := "key.pem", CertFile := "", InsecureSkipVerify := true, CaCertFile := "" }] :=
  ⟨by decide,
   (newClient_tls_request fluxEnv { nsOnly "flux" with TLSEnable := true, TLSKey := "key.pem" } []
      "tiller-deploy.flux:44134" (by decide)).1.trans (by decide)⟩

/-- C10 as stated fails: with an explicit host and port, `TLSEnable` set and
no key or certificate path, the address resolves and building the TLS
configuration does not succeed (`tlsutil.ClientConfig` panics), yet `newClient`
returns no error: the equivalence of the claim, with "fails" read as "does not
produce its result", is false. -/
theorem newClient_error_iff_counterexample :
    ¬ ((∃ c e, (newClient noDiscovery tlsBareOpts []).1 = .ret (c, some e)) ↔
        ((¬ ∃ host, (tillerHost noDiscovery tlsBareOpts []).1 = .ret (host, none)) ∨
         ((tlsBareOpts.TLSVerify = true ∨ tlsBareOpts.TLSEnable = true) ∧
          ¬ ∃ cfg, noDiscovery.ClientConfig ([] ++ (tillerHost noDiscovery tlsBareOpts []).2)
              (tlsRequest tlsBareOpts) = .ret (.ok cfg)))) := by
  intro hiff
  have hpanic : (newClient noDiscovery tlsBareOpts []).1
      = .panic (.foreign "invalid memory address or nil pointer dereference") := by decide
  have hcc : noDiscovery.ClientConfig ([] ++ (tillerHost noDiscovery tlsBareOpts []).2)
      (tlsRequest tlsBareOpts)
      = .panic (.foreign "invalid memory address or nil pointer dereference") := rfl
  obtain ⟨c, e, hce⟩ := hiff.mpr (Or.inr ⟨Or.inr rfl, by
    rintro ⟨cfg, hcfg⟩
    rw [hcc] at hcfg
    cases hcfg⟩)
  rw [hpanic] at hce
  cases hce

/-- C10, amended: one attempt of `newClient` returns an error if and only if
either `tillerHost` returns an error, or `tillerHost` returns an endpoint,
`TLSVerify` or `TLSEnable` is set and `tlsutil.ClientConfig` returns an error on
the request.  A panic is not turned into an error: `newClient` ends in panic `p`
if and only if `tillerHost` ends in `p`, or `tillerHost` returns an endpoint, a
TLS flag is set and `tlsutil.ClientConfig` ends in `p`.  When neither flag is set
no TLS load happens and the attempt is the same whatever `tlsutil.ClientConfig`
would do; when `tillerHost` does not return an endpoint no TLS load happens. -/
theorem newClient_error_or_panic {Cfg : Type} (kubeClient : Env Cfg) (opts : TillerOptions)
    (hist : List Event) :
    ((∃ c e, (newClient kubeClient opts hist).1 = .ret (c, some e)) ↔
      ((∃ s e, (tillerHost kubeClient opts hist).1 = .ret (s, some e)) ∨
       ((∃ host, (tillerHost kubeClient opts hist).1 = .ret (host, none)) ∧
        (opts.TLSVerify = true ∨ opts.TLSEnable = true) ∧
        ∃ e, kubeClient.ClientConfig (hist ++ (tillerHost kubeClient opts hist).2)
              (tlsRequest opts) = .ret (.error e)))) ∧
    (∀ p, (newClient kubeClient opts hist).1 = .panic p ↔
      ((tillerHost kubeClient opts hist).1 = .panic p ∨
       ((∃ host, (tillerHost kubeClient opts hist).1 = .ret (host, none)) ∧
        (opts.TLSVerify = true ∨ opts.TLSEnable = true) ∧
        kubeClient.ClientConfig (hist ++ (tillerHost kubeClient opts hist).2)
              (tlsRequest opts) = .panic p))) ∧
    (opts.TLSVerify = false → opts.TLSEnable = false →
      (∀ o, Event.tlsLoad o ∉ (newClient kubeClient opts hist).2) ∧
      ∀ cc : List Event → TLSOptions → GoResult (Except Error Cfg),
        newClient { kubeClient with ClientConfig := cc } opts hist
          = newClient kubeClient opts hist) ∧
    ((¬ ∃ host, (tillerHost kubeClient opts hist).1 = .ret (host, none)) →
      ∀ o, Event.tlsLoad o ∉ (newClient kubeClient opts hist).2) := by
  have hnotls : ∀ o, Event.tlsLoad o ∉ (tillerHost kubeClient opts hist).2 := by
    intro o
    rcases tillerHost_events kubeClient opts hist with h | h <;> rw [h] <;> simp
  refine ⟨?_, ?_, ?_, ?_⟩
  · rcases hth : tillerHost kubeClient opts hist with ⟨r, ev⟩
    rcases r with ⟨s, _ | err⟩ | p
    · by_cases hflag : opts.TLSVerify = true ∨ opts.TLSEnable = true
      · rcases hcc : kubeClient.ClientConfig (hist ++ ev) (tlsRequest opts) with (e | cfg) | q
        · simp [newClient_of_host_tls_error _ _ _ _ _ _ hth hflag hcc, hflag, hcc]
        · simp [newClient_of_host_tls_ok _ _ _ _ _ _ hth hflag hcc, hflag, hcc]
        · simp [newClient_of_host_tls_panic _ _ _ _ _ _ hth hflag hcc, hflag, hcc]
      · simp [newClient_of_host_plain _ _ _ _ _ hth hflag, hflag]
    · simp [newClient_of_error _ _ _ _ _ _ hth]
    · simp [newClient_of_panic _ _ _ _ _ hth]
  · intro p0
    rcases hth : tillerHost kubeClient opts hist with ⟨r, ev⟩
    rcases r with ⟨s, _ | err⟩ | p
    · by_cases hflag : opts.TLSVerify = true ∨ opts.TLSEnable = true
      · rcases hcc : kubeClient.ClientConfig (hist ++ ev) (tlsRequest opts) with (e | cfg) | q
        · simp [newClient_of_host_tls_error _ _ _ _ _ _ hth hflag hcc, hflag, hcc]
        · simp [newClient_of_host_tls_ok _ _ _ _ _ _ hth hflag hcc, hflag, hcc]
        · simp [newClient_of_host_tls_panic _ _ _ _ _ _ hth hflag hcc, hflag, hcc]
      · simp [newClient_of_host_plain _ _ _ _ _ hth hflag, hflag]
    · simp [newClient_of_error _ _ _ _ _ _ hth]
    · simp [newClient_of_panic _ _ _ _ _ hth]
  · intro hv he
    constructor
    · intro o
      rw [newClient_events]
      have := hnotls o
      simp only [hv, he, List.mem_append, not_or]
      refine ⟨this, ?_⟩
      split <;> simp
    · intro cc
      have hth : tillerHost { kubeClient with ClientConfig := cc } opts hist
          = tillerHost kubeClient opts hist := rfl
      unfold newClient
      rw [hth]
      split
      · rfl
      · rfl
      · simp [hv, he]
  · intro hno o
    rw [newClient_events]
    have := hnotls o
    simp only [List.mem_append, not_or]
    refine ⟨this, ?_⟩
    split
    · rename_i host heq
      exact absurd ⟨host, heq⟩ hno
    · simp

/-- Witness of C10: with `TLSEnable` set and a key file that does not load, the
attempt returns an error although the address resolves; with `TLSEnable` set and
no key or certificate path, the attempt ends in the panic of the TLS load. -/
theorem newClient_error_or_panic_witness :
    (∃ c e, (newClient fluxEnv { nsOnly "flux" with TLSEnable := true, TLSKey := "nokey" } []).1
      = .ret (c, some e)) ∧
    (newClient noDiscovery tlsBareOpts []).1
      = .panic (.foreign "invalid memory address or nil pointer dereference") :=
  ⟨(newClient_error_or_panic fluxEnv
      { nsOnly "flux" with TLSEnable := true, TLSKey := "nokey" } []).1.mpr
    (Or.inr ⟨⟨"tiller-deploy.flux:44134", by decide⟩, Or.inr rfl,
      ⟨⟨"open nokey: no such file"⟩, rfl⟩⟩),
   ((newClient_error_or_panic noDiscovery tlsBareOpts []).2.1
      (.foreign "invalid memory address or nil pointer dereference")).mpr
    (Or.inr ⟨⟨"10.0.0.5:44134", by decide⟩, Or.inr rfl, rfl⟩)⟩

/-! ## The bootstrap loop -/

theorem ClientSetup_of_success {Cfg : Type} (kubeClient : Env Cfg) (opts : TillerOptions)
    (hist : List Event) (fuel : Nat) (c : Client Cfg) (ev : List Event)
    (h : newClient kubeClient opts hist = (.ret (c, none), ev)) :
    ClientSetup (fuel + 1) kubeClient opts hist
      = some ⟨.ret c, ev ++ [Event.log "info" "Helm client set up"], 1⟩ := by
  simp only [ClientSetup, h]

theorem ClientSetup_of_failure {Cfg : Type} (kubeClient : Env Cfg) (opts : TillerOptions)
    (hist : List Event) (fuel : Nat) (c : Client Cfg) (err : Error) (ev : List Event)
    (h : newClient kubeClient opts hist = (.ret (c, some err), ev)) :
    ClientSetup (fuel + 1) kubeClient opts hist
      = (ClientSetup fuel kubeClient opts (hist ++ (ev ++ retryEvents err))).map
          (fun run => ⟨run.result, (ev ++ retryEvents err) ++ run.events, run.attempts + 1⟩) := by
  simp only [ClientSetup, h]
  cases ClientSetup fuel kubeClient opts (hist ++ (ev ++ retryEvents err)) <;> rfl

theorem failsThenSucceeds_zero {Cfg : Type} (kubeClient : Env Cfg) (opts : TillerOptions)
    (hist : List Event) (h : failsThenSucceeds kubeClient opts 0 hist = true) :
    ∃ c ev, newClient kubeClient opts hist = (.ret (c, none), ev) := by
  rcases hnc : newClient kubeClient opts hist with ⟨r, ev⟩
  rcases r with ⟨c, _ | err⟩ | p
  · exact ⟨c, ev, rfl⟩
  · simp [failsThenSucceeds, hnc] at h
  · simp [failsThenSucceeds, hnc] at h

theorem failsThenSucceeds_succ {Cfg : Type} (kubeClient : Env Cfg) (opts : TillerOptions)
    (hist : List Event) (n : Nat) (h : failsThenSucceeds kubeClient opts (n + 1) hist = true) :
    ∃ c err ev, newClient kubeClient opts hist = (.ret (c, some err), ev) ∧
      failsThenSucceeds kubeClient opts n (hist ++ (ev ++ retryEvents err)) = true := by
  rcases hnc : newClient kubeClient opts hist with ⟨r, ev⟩
  rcases r with ⟨c, _ | err⟩ | p
  · simp [failsThenSucceeds, hnc] at h
  · refine ⟨c, err, ev, rfl, ?_⟩
    simpa [failsThenSucceeds, hnc] using h
  · simp [failsThenSucceeds, hnc] at h

/-- C5: if, started after `hist`, `newClient` fails on the first `N` attempts
and succeeds on attempt `N + 1`, then `ClientSetup` returns a client `c` as soon
as the loop may run `N + 1` iterations (and has not returned within `N`), after
exactly `N + 1` calls of `newClient`; its sleeps are exactly `N`, each of
`20 * Second`; its log entries are `N` with key `error` followed by one with key
`info`; and `c` is the client returned with a nil error by the attempt made after
the `N` sleeps, which is not the empty client of a failed attempt. -/
theorem ClientSetup_retries {Cfg : Type} (kubeClient : Env Cfg) (opts : TillerOptions)
    (N : Nat) (hist : List Event)
    (h : failsThenSucceeds kubeClient opts N hist = true) :
    ∃ (c : Client Cfg) (evs pre last : List Event),
      (∀ fuel, N + 1 ≤ fuel →
        ClientSetup fuel kubeClient opts hist = some ⟨.ret c, evs, N + 1⟩) ∧
      (∀ fuel, fuel ≤ N → ClientSetup fuel kubeClient opts hist = none) ∧
      evs.filterMap Event.sleepOf = List.replicate N (20 * Second) ∧
      evs.filterMap Event.logKeyOf = List.replicate N "error" ++ ["info"] ∧
      evs = pre ++ last ++ [Event.log "info" "Helm client set up"] ∧
      pre.filterMap Event.sleepOf = List.replicate N (20 * Second) ∧
      newClient kubeClient opts (hist ++ pre) = (.ret (c, none), last) ∧
      c ≠ ⟨[]⟩ := by
  induction N generalizing hist with
  | zero =>
    obtain ⟨c, ev, hnc⟩ := failsThenSucceeds_zero kubeClient opts hist h
    have hq := newClient_quiet kubeClient opts hist
    rw [hnc] at hq
    refine ⟨c, ev ++ [Event.log "info" "Helm client set up"], [], ev, ?_, ?_, ?_, ?_, ?_, ?_, ?_, ?_⟩
    · intro fuel hfuel
      obtain ⟨f, rfl⟩ : ∃ f, fuel = f + 1 := ⟨fuel - 1, by omega⟩
      exact ClientSetup_of_success kubeClient opts hist f c ev hnc
    · intro fuel hfuel
      obtain rfl : fuel = 0 := by omega
      rfl
    · simp [List.filterMap_append, hq.1, Event.sleepOf]
    · simp [List.filterMap_append, hq.2, Event.logKeyOf]
    · simp
    · rfl
    · simpa using hnc
    · exact newClient_success_opts kubeClient opts hist c (by rw [hnc])
  | succ n ih =>
    obtain ⟨c0, err, ev, hnc, hrest⟩ := failsThenSucceeds_succ kubeClient opts hist n h
    obtain ⟨c, evs, pre, last, hrun, hnone, hsleep, hlog, hsplit, hpre, hlast, hne⟩ :=
      ih (hist ++ (ev ++ retryEvents err)) hrest
    have hq := newClient_quiet kubeClient opts hist
    rw [hnc] at hq
    refine ⟨c, (ev ++ retryEvents err) ++ evs, (ev ++ retryEvents err) ++ pre, last,
      ?_, ?_, ?_, ?_, ?_, ?_, ?_, hne⟩
    · intro fuel hfuel
      obtain ⟨f, rfl⟩ : ∃ f, fuel = f + 1 := ⟨fuel - 1, by omega⟩
      rw [ClientSetup_of_failure kubeClient opts hist f c0 err ev hnc, hrun f (by omega)]
      rfl
    · intro fuel hfuel
      cases fuel with
      | zero => rfl
      | succ f =>
        rw [ClientSetup_of_failure kubeClient opts hist f c0 err ev hnc, hnone f (by omega)]
        rfl
    · simp [List.filterMap_append, hq.1, hsleep, retryEvents, Event.sleepOf, List.replicate_succ]
    · simp [List.filterMap_append, hq.2, hlog, retryEvents, Event.logKeyOf, List.replicate_succ]
    · rw [hsplit]
      simp [List.append_assoc]
    · simp [List.filterMap_append, hq.1, hpre, retryEvents, Event.sleepOf, List.replicate_succ]
    · rw [← List.append_assoc]
      exact hlast

/-- Witness of C5: the service appears at the third lookup, so two attempts
fail and the third returns the client bound to `tiller-deploy.flux:44134`. -/
theorem ClientSetup_retries_witness :
    failsThenSucceeds testEnv (nsOnly "flux") 2 [] = true ∧
    ClientSetup 3 testEnv (nsOnly "flux") []
      = some ⟨.ret ⟨[HelmOption.Host "tiller-deploy.flux:44134"]⟩,
          [Event.lookup "flux" "tiller-deploy",
           Event.log "error" "Error creating helm client: connection refused",
           Event.sleep 20000000000,
           Event.lookup "flux" "tiller-deploy",
           Event.log "error" "Error creating helm client: connection refused",
           Event.sleep 20000000000,
           Event.lookup "flux" "tiller-deploy",
           Event.log "info" "Helm client set up"], 3⟩ ∧
    ∃ (c : Client Nat) (evs pre last : List Event),
      (∀ fuel, 2 + 1 ≤ fuel →
        ClientSetup fuel testEnv (nsOnly "flux") [] = some ⟨.ret c, evs, 2 + 1⟩) ∧
      (∀ fuel, fuel ≤ 2 → ClientSetup fuel testEnv (nsOnly "flux") [] = none) ∧
      evs.filterMap Event.sleepOf = List.replicate 2 (20 * Second) ∧
      evs.filterMap Event.logKeyOf = List.replicate 2 "error" ++ ["info"] ∧
      evs = pre ++ last ++ [Event.log "info" "Helm client set up"] ∧
      pre.filterMap Event.sleepOf = List.replicate 2 (20 * Second) ∧
      newClient testEnv (nsOnly "flux") ([] ++ pre) = (.ret (c, none), last) ∧
      c ≠ ⟨[]⟩ :=
  ⟨by decide, by decide, ClientSetup_retries testEnv (nsOnly "flux") 2 [] (by decide)⟩

/-! ## The version diagnostic -/

/-- C7 (the code departs from it): when the version query returns a nil error,
whatever response comes with it, `GetTillerVersion` returns the empty string and
the error `error getting tiller version: <nil>`; the version is not returned. -/
theorem GetTillerVersion_on_success {Cfg Resp : Type}
    (versionString : Option Resp → GoResult String) (cl : Client Cfg) (h : String)
    (v : Option Resp) :
    GetTillerVersion (fun _ _ => (v, none)) versionString cl h
      = .ret ("", some ⟨"error getting tiller version: <nil>"⟩) := by
  simp [GetTillerVersion, fmtError]

/-- Witness of C7: a query answering version `v2.9.1` with a nil error yields
no version but an error. -/
theorem GetTillerVersion_on_success_witness :
    @GetTillerVersion Nat String (fun _ _ => (some "v2.9.1", none)) protoString ⟨[]⟩
        "tiller-deploy.flux:44134"
      = .ret ("", some ⟨"error getting tiller version: <nil>"⟩) :=
  GetTillerVersion_on_success protoString ⟨[]⟩ "tiller-deploy.flux:44134" (some "v2.9.1")

/-- C8 (the code departs from it): when the version query returns an error,
`GetTillerVersion` never returns an error: it returns the rendering of the
response with a nil error, or panics while rendering. -/
theorem GetTillerVersion_on_failure {Cfg Resp : Type}
    (versionString : Option Resp → GoResult String) (cl : Client Cfg) (h : String)
    (v : Option Resp) (e : Error) :
    (∀ s err, GetTillerVersion (fun _ _ => (v, some e)) versionString cl h
      ≠ .ret (s, some err)) ∧
    (∀ s, versionString v = .ret s →
      GetTillerVersion (fun _ _ => (v, some e)) versionString cl h = .ret (s, none)) := by
  constructor
  · intro s err
    simp only [GetTillerVersion]
    rw [if_neg (by simp)]
    split <;> simp
  · intro s hs
    simp [GetTillerVersion, hs]

/-- Witness of C8: a query failing with `context deadline exceeded` and a nil
response yields the text `<nil>` and a nil error. -/
theorem GetTillerVersion_on_failure_witness :
    @GetTillerVersion Nat String (fun _ _ => (none, some ⟨"context deadline exceeded"⟩))
        protoString ⟨[]⟩ "tiller-deploy.flux:44134"
      = .ret ("<nil>", none) :=
  (GetTillerVersion_on_failure protoString ⟨[]⟩ "tiller-deploy.flux:44134" none
    ⟨"context deadline exceeded"⟩).2 "<nil>" rfl

end Helm
